import Mathlib

/-!
Verification of `experiments/downstream/create_latent_dataset_from_checkpoint.py`
(enf-jax).  The script is a one-shot orchestration entry point: it resolves
directories, loads the training configuration saved next to a checkpoint,
overlays a few invocation fields onto it, builds dataloaders, inspects a
sample to derive shape fields, builds a normalized coordinate grid,
reconstructs the trainer, restores the checkpoint, validates the run mode,
initializes experiment tracking, and finally materializes the latent dataset.

We embed the script shallowly: the two configuration trees become Lean
structures, the external collaborators (hydra, dataloader, trainer,
checkpoint, wandb, latent-dataset routine) become an environment record and
an event trace, and the script body becomes a total function from the
invocation configuration and the environment to a `RunResult`.  Python
truthiness of optional string fields is modelled by the empty string;
assertion failures are modelled by an abort message, with the events that
happened before the abort kept in the trace.
-/

/-- `conf.dataset` of the invocation configuration. -/
structure ConfDataset where
  name : String
  num_signals_train : Int
  num_signals_test : Int
deriving Repr, DecidableEq

/-- `conf.training` of the invocation configuration. -/
structure ConfTraining where
  batch_size : Int
  fit_codes_num_epochs : Int
deriving Repr, DecidableEq

/-- `conf.logging` of the invocation configuration. -/
structure ConfLogging where
  log_dir : String
  debug : Bool
deriving Repr, DecidableEq

/-- `conf.latent_dataset` of the invocation configuration. -/
structure ConfLatentDataset where
  load : Bool
  store_if_new : Bool
deriving Repr, DecidableEq

/-- The invocation configuration `conf` handed to the script by hydra. -/
structure Conf where
  checkpoint_dir : String
  dataset : ConfDataset
  training : ConfTraining
  logging : ConfLogging
  latent_dataset : ConfLatentDataset
deriving Repr, DecidableEq

/-- `enf_cfg.dataset` of the training configuration loaded from the
checkpoint's `.hydra/config.yaml`. -/
structure EnfDatasetCfg where
  name : String
  num_signals_train : Int
  num_signals_test : Int
  batch_size : Int
  image_shape : List Nat
deriving Repr, DecidableEq

/-- `enf_cfg.logging` of the loaded training configuration. -/
structure EnfLoggingCfg where
  log_dir : String
deriving Repr, DecidableEq

/-- `enf_cfg.test` of the loaded training configuration. -/
structure EnfTestCfg where
  min_num_epochs : Int
deriving Repr, DecidableEq

/-- `enf_cfg.nef` of the loaded training configuration. -/
structure NefCfg where
  num_in : Int
  num_out : Int
deriving Repr, DecidableEq

/-- The training configuration `enf_cfg`.  `hasMeta` records whether the
config has a `"meta"` section (`"meta" in enf_cfg`); `rest` holds, as opaque
key/value pairs, every field of the loaded config that the script never
names, so that frame properties can be stated. -/
structure EnfCfg where
  dataset : EnfDatasetCfg
  logging : EnfLoggingCfg
  test : EnfTestCfg
  nef : NefCfg
  hasMeta : Bool
  rest : List (String × String)
deriving Repr, DecidableEq

/-- The script's external collaborators: hydra's runtime output directory,
the configuration stored at `checkpoint_dir/.hydra/config.yaml`,
`Path(...).resolve()`, and the shape of the first sample of the first
training batch (`next(iter(trainset))[0][0].shape`). -/
structure Env where
  hydra_output_dir : String
  loaded_cfg : EnfCfg
  resolve : String → String
  image_shape : List Nat

/-- Observable events of the pipeline, in the order the script emits them.
`wandbInit` records the arguments of the experiment-tracking call:
mode, run name, directory, and the config attached to the run. -/
inductive Event where
  | loadConfigFile
  | configMerge
  | dataloaderConstruction
  | trainerReconstruction (meta : Bool)
  | checkpointRestore
  | wandbInit (mode : String) (runName : String) (dir : String) (cfg : EnfCfg)
  | latentDatasetCreation
deriving Repr, DecidableEq

/-- Outcome of a run: the event trace, the assertion message if the run
aborted, the final invocation config, and (once loaded) the final merged
training config and the coordinate grid. -/
structure RunResult where
  events : List Event
  abortMsg : Option String
  conf : Conf
  enf_cfg : Option EnfCfg
  coords : Option (List (ℚ × ℚ))
deriving Repr

/-- `jnp.linspace start stop num` (endpoint included), over ℚ. -/
def linspace (start stop : ℚ) (num : Nat) : List ℚ :=
  if num = 0 then []
  else if num = 1 then [start]
  else (List.range num).map
    (fun (i : Nat) => start + (stop - start) * (i : ℚ) / ((num : ℚ) - 1))

/-- Lines 48-49:
`jnp.stack(jnp.meshgrid(jnp.linspace(-1,1,H), jnp.linspace(-1,1,W)), axis=-1).reshape(-1, 2)`.
`meshgrid` with its default xy indexing produces arrays of shape `(W, H)`,
so the row-major flattening enumerates, for each second-axis value `y`, all
first-axis values `x`, yielding the pairs `(x, y)`. -/
def make_coords (H W : Nat) : List (ℚ × ℚ) :=
  ((linspace (-1) 1 W).map (fun y => (linspace (-1) 1 H).map (fun x => (x, y)))).flatten

/-- Lines 19-25: assert `conf.checkpoint_dir` is set (checked separately by
the caller), resolve it, and default `conf.logging.log_dir` to hydra's
runtime output directory when it is unset. -/
def resolveConf (conf : Conf) (env : Env) : Conf :=
  if conf.logging.log_dir = "" then
    { conf with checkpoint_dir := env.resolve conf.checkpoint_dir,
                logging := { conf.logging with log_dir := env.hydra_output_dir } }
  else
    { conf with checkpoint_dir := env.resolve conf.checkpoint_dir }

/-- Lines 28-36: after loading `enf_cfg` from the checkpoint directory, set
`enf_cfg.logging.log_dir = conf.checkpoint_dir` and overlay the dataset
fields: the dataset name only when `conf.dataset.name` is truthy, the
sample counts, the batch size and the minimum number of fitting epochs
unconditionally. -/
def mergeCfg (conf : Conf) (loaded : EnfCfg) : EnfCfg :=
  { loaded with
    logging := { loaded.logging with log_dir := conf.checkpoint_dir },
    dataset := { loaded.dataset with
      name := if conf.dataset.name ≠ "" then conf.dataset.name else loaded.dataset.name,
      num_signals_train := conf.dataset.num_signals_train,
      num_signals_test := conf.dataset.num_signals_test,
      batch_size := conf.training.batch_size },
    test := { min_num_epochs := conf.training.fit_codes_num_epochs } }

/-- Lines 45 and 52-53: record the sampled image shape and set the input
and output dimensionalities (`num_in = 2`, `num_out = image_shape[-1]`).
Sample shapes are nonempty in any run that gets here, so the default of
`getLastD` is never exercised. -/
def injectShape (cfg : EnfCfg) (shape : List Nat) : EnfCfg :=
  { cfg with
    dataset := { cfg.dataset with image_shape := shape },
    nef := { num_in := 2, num_out := (shape.getLastD 0 : Int) } }

/-- The merged training configuration as it stands when the trainer is
built and when it is attached to the experiment-tracking run. -/
def finalEnfCfg (conf : Conf) (env : Env) : EnfCfg :=
  injectShape (mergeCfg (resolveConf conf env) env.loaded_cfg) env.image_shape

/-- The script body of `create_latent_dataset_from_checkpoint`.  Straight
line: directory resolution, config load and merge, dataloader, sample
shape, coordinate grid, trainer reconstruction (meta-SGD variant iff the
loaded config has a `"meta"` section), checkpoint restore, the two mode
assertions, wandb initialization, latent-dataset creation. -/
def create_latent_dataset_from_checkpoint (conf : Conf) (env : Env) : RunResult :=
  if conf.checkpoint_dir = "" then
    { events := [], abortMsg := some "checkpoint_dir not set",
      conf := conf, enf_cfg := none, coords := none }
  else
    let conf1 := resolveConf conf env
    let cfg1 := mergeCfg conf1 env.loaded_cfg
    let shape := env.image_shape
    let cfg2 := injectShape cfg1 shape
    let coords := make_coords (shape.getD 0 0) (shape.getD 1 0)
    let ev := [Event.loadConfigFile, Event.configMerge, Event.dataloaderConstruction,
               Event.trainerReconstruction cfg2.hasMeta, Event.checkpointRestore]
    if conf1.latent_dataset.load then
      { events := ev, abortMsg := some "trying to load a latent dataset",
        conf := conf1, enf_cfg := some cfg2, coords := some coords }
    else if conf1.latent_dataset.store_if_new = false then
      { events := ev, abortMsg := some "creating a latent dataset without storing it",
        conf := conf1, enf_cfg := some cfg2, coords := some coords }
    else
      { events := ev ++
          [Event.wandbInit (if conf1.logging.debug then "disabled" else "online")
             ("latent-dataset-" ++ conf1.dataset.name) conf1.logging.log_dir cfg2,
           Event.latentDatasetCreation],
        abortMsg := none, conf := conf1, enf_cfg := some cfg2, coords := some coords }

/-- Whether an event is the experiment-tracking initialization. -/
def Event.isWandbInit : Event → Bool
  | .wandbInit _ _ _ _ => true
  | _ => false

/-- The flag of the trainer-reconstruction event of a run, if any:
`some true` for the meta-SGD trainer, `some false` for the plain
auto-decoding trainer. -/
def trainerOf (r : RunResult) : Option Bool :=
  r.events.findSome? (fun e => match e with
    | .trainerReconstruction m => some m
    | _ => none)

/-- The arguments of the experiment-tracking initialization of a run,
if any: mode, run name, directory, attached config. -/
def wandbArgsOf (r : RunResult) : Option (String × String × String × EnfCfg) :=
  r.events.findSome? (fun e => match e with
    | .wandbInit m n d c => some (m, n, d, c)
    | _ => none)

/-! ### Projection lemmas -/

/-- `resolveConf` leaves every section other than `checkpoint_dir` and
`logging` untouched. -/
@[simp]
lemma resolveConf_latent_dataset (conf : Conf) (env : Env) :
    (resolveConf conf env).latent_dataset = conf.latent_dataset := by
  unfold resolveConf
  split <;> rfl

@[simp]
lemma resolveConf_dataset (conf : Conf) (env : Env) :
    (resolveConf conf env).dataset = conf.dataset := by
  unfold resolveConf
  split <;> rfl

@[simp]
lemma resolveConf_training (conf : Conf) (env : Env) :
    (resolveConf conf env).training = conf.training := by
  unfold resolveConf
  split <;> rfl

@[simp]
lemma resolveConf_checkpoint_dir (conf : Conf) (env : Env) :
    (resolveConf conf env).checkpoint_dir = env.resolve conf.checkpoint_dir := by
  unfold resolveConf
  split <;> rfl

@[simp]
lemma resolveConf_log_dir (conf : Conf) (env : Env) :
    (resolveConf conf env).logging.log_dir =
      if conf.logging.log_dir = "" then env.hydra_output_dir else conf.logging.log_dir := by
  unfold resolveConf
  split <;> simp_all

@[simp]
lemma resolveConf_debug (conf : Conf) (env : Env) :
    (resolveConf conf env).logging.debug = conf.logging.debug := by
  unfold resolveConf
  split <;> rfl

@[simp]
lemma mergeCfg_hasMeta (conf : Conf) (loaded : EnfCfg) :
    (mergeCfg conf loaded).hasMeta = loaded.hasMeta := rfl

@[simp]
lemma mergeCfg_rest (conf : Conf) (loaded : EnfCfg) :
    (mergeCfg conf loaded).rest = loaded.rest := rfl

@[simp]
lemma injectShape_hasMeta (cfg : EnfCfg) (shape : List Nat) :
    (injectShape cfg shape).hasMeta = cfg.hasMeta := rfl

@[simp]
lemma injectShape_rest (cfg : EnfCfg) (shape : List Nat) :
    (injectShape cfg shape).rest = cfg.rest := rfl

@[simp]
lemma injectShape_logging (cfg : EnfCfg) (shape : List Nat) :
    (injectShape cfg shape).logging = cfg.logging := rfl

/-! ### Sample inputs used by witnesses and counterexamples -/

/-- A concrete training configuration as loaded from a checkpoint. -/
def sampleLoaded : EnfCfg :=
  { dataset := { name := "cifar10", num_signals_train := 1000, num_signals_test := 100,
                 batch_size := 32, image_shape := [] },
    logging := { log_dir := "/original/run" },
    test := { min_num_epochs := 5 },
    nef := { num_in := 0, num_out := 0 },
    hasMeta := false,
    rest := [("nef.num_hidden", "128")] }

/-- A concrete invocation configuration that passes every assertion. -/
def sampleConf : Conf :=
  { checkpoint_dir := "/ckpt",
    dataset := { name := "stl10", num_signals_train := 500, num_signals_test := 50 },
    training := { batch_size := 16, fit_codes_num_epochs := 3 },
    logging := { log_dir := "", debug := true },
    latent_dataset := { load := false, store_if_new := true } }

/-- A concrete environment; `resolve` prefixes an absolute root. -/
def sampleEnv : Env :=
  { hydra_output_dir := "/outputs/today",
    loaded_cfg := sampleLoaded,
    resolve := fun s => "/abs" ++ s,
    image_shape := [2, 3, 1] }

/-! ### C1: trainer variant selection -/

/-- C1: for every invocation that gets past the `checkpoint_dir` assertion,
the trainer reconstructed is the meta-SGD auto-decoding variant exactly when
the configuration loaded from the checkpoint has a `"meta"` section, and the
plain auto-decoding variant when it does not; the choice is a function of
the loaded configuration only, never of the invocation's own config. -/
theorem trainer_choice_follows_meta_section (conf : Conf) (env : Env)
    (h : conf.checkpoint_dir ≠ "") :
    trainerOf (create_latent_dataset_from_checkpoint conf env) =
      some env.loaded_cfg.hasMeta := by
  simp only [create_latent_dataset_from_checkpoint]
  rw [if_neg h]
  split_ifs <;> simp [trainerOf, List.findSome?]

/-- Witness for C1 at a concrete input. -/
theorem trainer_choice_follows_meta_section_witness :
    trainerOf (create_latent_dataset_from_checkpoint sampleConf sampleEnv) =
      some sampleEnv.loaded_cfg.hasMeta :=
  trainer_choice_follows_meta_section sampleConf sampleEnv (by decide)

/-! ### Run-level helper lemmas -/

/-- Past the `checkpoint_dir` assertion, the final merged config of a run is
`finalEnfCfg`, whatever the later assertions decide. -/
lemma run_enf_cfg (conf : Conf) (env : Env) (h : conf.checkpoint_dir ≠ "") :
    (create_latent_dataset_from_checkpoint conf env).enf_cfg =
      some (finalEnfCfg conf env) := by
  simp only [create_latent_dataset_from_checkpoint, finalEnfCfg]
  rw [if_neg h]
  split_ifs <;> rfl

/-- Past the `checkpoint_dir` assertion, the final invocation config of a
run is `resolveConf conf env`. -/
lemma run_conf (conf : Conf) (env : Env) (h : conf.checkpoint_dir ≠ "") :
    (create_latent_dataset_from_checkpoint conf env).conf = resolveConf conf env := by
  simp only [create_latent_dataset_from_checkpoint]
  rw [if_neg h]
  split_ifs <;> rfl

/-- Past the `checkpoint_dir` assertion, the coordinate grid of a run is
`make_coords` on the two leading entries of the sampled image shape. -/
lemma run_coords (conf : Conf) (env : Env) (h : conf.checkpoint_dir ≠ "") :
    (create_latent_dataset_from_checkpoint conf env).coords =
      some (make_coords (env.image_shape.getD 0 0) (env.image_shape.getD 1 0)) := by
  simp only [create_latent_dataset_from_checkpoint]
  rw [if_neg h]
  split_ifs <;> rfl

/-! ### C3: validation assertions -/

/-- C3: once execution reaches the validation assertions (modelled here as:
the `checkpoint_dir` assertion passed, all earlier failures being external),
the run aborts iff `conf.latent_dataset.load` is true or
`conf.latent_dataset.store_if_new` is false, and on such an abort neither
the experiment-tracking initialization nor the latent-dataset creation
routine is ever reached. -/
theorem validation_abort_iff (conf : Conf) (env : Env)
    (h : conf.checkpoint_dir ≠ "") :
    ((create_latent_dataset_from_checkpoint conf env).abortMsg ≠ none ↔
      (conf.latent_dataset.load = true ∨ conf.latent_dataset.store_if_new = false))
    ∧ ((create_latent_dataset_from_checkpoint conf env).abortMsg ≠ none →
        (∀ e ∈ (create_latent_dataset_from_checkpoint conf env).events,
            e.isWandbInit = false)
        ∧ Event.latentDatasetCreation ∉
            (create_latent_dataset_from_checkpoint conf env).events) := by
  simp only [create_latent_dataset_from_checkpoint]
  rw [if_neg h]
  split_ifs <;> simp_all [Event.isWandbInit]

/-- Witness for C3 at a concrete aborting input (`load = true`). -/
theorem validation_abort_iff_witness :
    ((create_latent_dataset_from_checkpoint
        { sampleConf with latent_dataset := { load := true, store_if_new := true } }
        sampleEnv).abortMsg ≠ none ↔
      (({ sampleConf with
            latent_dataset := { load := true, store_if_new := true } } :
          Conf).latent_dataset.load = true ∨
        ({ sampleConf with
            latent_dataset := { load := true, store_if_new := true } } :
          Conf).latent_dataset.store_if_new = false))
    ∧ ((create_latent_dataset_from_checkpoint
          { sampleConf with latent_dataset := { load := true, store_if_new := true } }
          sampleEnv).abortMsg ≠ none →
        (∀ e ∈ (create_latent_dataset_from_checkpoint
                  { sampleConf with
                    latent_dataset := { load := true, store_if_new := true } }
                  sampleEnv).events, e.isWandbInit = false)
        ∧ Event.latentDatasetCreation ∉
            (create_latent_dataset_from_checkpoint
              { sampleConf with latent_dataset := { load := true, store_if_new := true } }
              sampleEnv).events) :=
  validation_abort_iff
    { sampleConf with latent_dataset := { load := true, store_if_new := true } }
    sampleEnv (by decide)

/-! ### C9: conditional name overlay, unconditional other overlays -/

/-- C9: in the overlay step, the dataset name is taken from the invocation
only when the invocation's `conf.dataset.name` is set (non-empty), falling
back to the loaded config's name otherwise, while the two sample counts,
the batch size and the minimum number of fitting epochs are taken from the
invocation unconditionally. -/
theorem name_overlay_conditional_rest_unconditional (conf : Conf) (loaded : EnfCfg) :
    (mergeCfg conf loaded).dataset.name =
      (if conf.dataset.name = "" then loaded.dataset.name else conf.dataset.name)
    ∧ (mergeCfg conf loaded).dataset.num_signals_train = conf.dataset.num_signals_train
    ∧ (mergeCfg conf loaded).dataset.num_signals_test = conf.dataset.num_signals_test
    ∧ (mergeCfg conf loaded).dataset.batch_size = conf.training.batch_size
    ∧ (mergeCfg conf loaded).test.min_num_epochs = conf.training.fit_codes_num_epochs := by
  refine ⟨?_, rfl, rfl, rfl, rfl⟩
  unfold mergeCfg
  split_ifs <;> simp_all

/-! ### C2: overlay of dataset fields -/

/-- An invocation configuration whose `conf.dataset.name` is unset. -/
def sampleConfNoName : Conf :=
  { sampleConf with
    dataset := { name := "", num_signals_train := 500, num_signals_test := 50 } }

/-- C2 counterexample: with an unset invocation dataset name, the merged
config keeps the checkpoint's dataset name (`"cifar10"`), so
`enf_cfg.dataset.name = conf.dataset.name` fails: the overlay of the name
is conditional, not unconditional as the claim states. -/
theorem overlay_name_counterexample :
    ((create_latent_dataset_from_checkpoint sampleConfNoName sampleEnv).enf_cfg.map
        (fun c => c.dataset.name)) ≠ some sampleConfNoName.dataset.name := by
  decide

/-- C2 amended: after the config merge, the merged training config's
sample counts, batch size and minimum fitting epochs equal the invocation's
values, and its dataset name equals the invocation's `conf.dataset.name`
when that is set (non-empty), the checkpoint config's name otherwise. -/
theorem overlay_fields_after_merge (conf : Conf) (env : Env)
    (h : conf.checkpoint_dir ≠ "") (c : EnfCfg)
    (hc : (create_latent_dataset_from_checkpoint conf env).enf_cfg = some c) :
    c.dataset.name =
      (if conf.dataset.name = "" then env.loaded_cfg.dataset.name else conf.dataset.name)
    ∧ c.dataset.num_signals_train = conf.dataset.num_signals_train
    ∧ c.dataset.num_signals_test = conf.dataset.num_signals_test
    ∧ c.dataset.batch_size = conf.training.batch_size
    ∧ c.test.min_num_epochs = conf.training.fit_codes_num_epochs := by
  rw [run_enf_cfg conf env h, Option.some_inj] at hc
  subst hc
  simp only [finalEnfCfg, injectShape, mergeCfg]
  refine ⟨?_, by simp, by simp, by simp, by simp⟩
  split_ifs <;> simp_all

/-- Witness for the amended C2 at a concrete input with a set name. -/
theorem overlay_fields_after_merge_witness :
    (finalEnfCfg sampleConf sampleEnv).dataset.name = "stl10" := by
  have h := overlay_fields_after_merge sampleConf sampleEnv (by decide)
    (finalEnfCfg sampleConf sampleEnv) (run_enf_cfg sampleConf sampleEnv (by decide))
  rw [h.1]
  decide

/-! ### C4: pipeline stage order -/

/-- C4 counterexample: in a concrete successful run the experiment-tracking
initialization occurs at an earlier trace position than the latent-dataset
materialization, refuting the claim that the tracking run is initialized
only after the latent dataset has been materialized. -/
theorem wandb_before_creation_counterexample :
    (create_latent_dataset_from_checkpoint sampleConf sampleEnv).events.findIdx
        Event.isWandbInit <
      (create_latent_dataset_from_checkpoint sampleConf sampleEnv).events.findIdx
        (fun e => decide (e = Event.latentDatasetCreation)) := by
  decide

/-- C4 amended: every successful run produces exactly the stage sequence
config load and merge, dataloader construction, trainer reconstruction,
checkpoint restore, experiment-tracking initialization, latent-dataset
materialization — i.e. the tracking run is initialized immediately before,
not after, the latent dataset is materialized. -/
theorem pipeline_event_order (conf : Conf) (env : Env)
    (h : conf.checkpoint_dir ≠ "") (hload : conf.latent_dataset.load = false)
    (hstore : conf.latent_dataset.store_if_new = true) :
    (create_latent_dataset_from_checkpoint conf env).events =
      [Event.loadConfigFile, Event.configMerge, Event.dataloaderConstruction,
       Event.trainerReconstruction env.loaded_cfg.hasMeta, Event.checkpointRestore,
       Event.wandbInit (if conf.logging.debug then "disabled" else "online")
         ("latent-dataset-" ++ conf.dataset.name)
         (if conf.logging.log_dir = "" then env.hydra_output_dir else conf.logging.log_dir)
         (finalEnfCfg conf env),
       Event.latentDatasetCreation] := by
  simp only [create_latent_dataset_from_checkpoint]
  rw [if_neg h]
  split_ifs <;> simp_all [finalEnfCfg]

/-- Witness for the amended C4: the concrete successful run has all seven
stages in its trace. -/
theorem pipeline_event_order_witness :
    (create_latent_dataset_from_checkpoint sampleConf sampleEnv).events.length = 7 := by
  rw [pipeline_event_order sampleConf sampleEnv (by decide) rfl rfl]
  rfl

/-! ### C7: frame of the loaded configuration -/

/-- C7 counterexample: `enf_cfg.logging.log_dir` is not among the claim's
excepted fields, yet the run overwrites it — the loaded value
`"/original/run"` is replaced by the resolved checkpoint directory. -/
theorem frame_log_dir_counterexample :
    ((create_latent_dataset_from_checkpoint sampleConf sampleEnv).enf_cfg.map
        (fun c => c.logging.log_dir)) ≠
      some sampleEnv.loaded_cfg.logging.log_dir := by
  decide

/-- C7 amended: besides the overlaid fields (`dataset.name`,
`dataset.num_signals_train`, `dataset.num_signals_test`,
`dataset.batch_size`, `test.min_num_epochs`) and the shape-derived fields
(`dataset.image_shape`, `nef.num_in`, `nef.num_out`), the run also
overwrites `enf_cfg.logging.log_dir` with the resolved checkpoint
directory; every remaining field of the loaded training config — its
`"meta"` section and everything else the script never names — keeps its
loaded value. -/
theorem frame_of_loaded_cfg (conf : Conf) (env : Env)
    (h : conf.checkpoint_dir ≠ "") (c : EnfCfg)
    (hc : (create_latent_dataset_from_checkpoint conf env).enf_cfg = some c) :
    c.rest = env.loaded_cfg.rest
    ∧ c.hasMeta = env.loaded_cfg.hasMeta
    ∧ c.logging.log_dir = env.resolve conf.checkpoint_dir := by
  rw [run_enf_cfg conf env h, Option.some_inj] at hc
  subst hc
  refine ⟨by simp [finalEnfCfg], by simp [finalEnfCfg], ?_⟩
  simp [finalEnfCfg, mergeCfg]

/-- Witness for the amended C7 at a concrete input. -/
theorem frame_of_loaded_cfg_witness :
    (finalEnfCfg sampleConf sampleEnv).rest = sampleEnv.loaded_cfg.rest := by
  have h := frame_of_loaded_cfg sampleConf sampleEnv (by decide)
    (finalEnfCfg sampleConf sampleEnv) (run_enf_cfg sampleConf sampleEnv (by decide))
  exact h.1

/-! ### C8: directory resolution -/

/-- An invocation configuration with an unset checkpoint directory. -/
def sampleConfNoCkpt : Conf := { sampleConf with checkpoint_dir := "" }

/-- C8: when `conf.checkpoint_dir` is unset the script aborts on the first
assertion before any event — in particular before the config file is read —
and otherwise `conf.checkpoint_dir` is replaced by its resolved path while
`conf.logging.log_dir` is set to hydra's runtime output directory exactly
when it was unset and kept otherwise. -/
theorem directory_resolution (conf : Conf) (env : Env) :
    (conf.checkpoint_dir = "" →
      (create_latent_dataset_from_checkpoint conf env).abortMsg ≠ none
      ∧ (create_latent_dataset_from_checkpoint conf env).events = [])
    ∧ (conf.checkpoint_dir ≠ "" →
      (create_latent_dataset_from_checkpoint conf env).conf.checkpoint_dir =
        env.resolve conf.checkpoint_dir
      ∧ (create_latent_dataset_from_checkpoint conf env).conf.logging.log_dir =
        (if conf.logging.log_dir = "" then env.hydra_output_dir
         else conf.logging.log_dir)) := by
  constructor
  · intro h
    simp only [create_latent_dataset_from_checkpoint, if_pos h]
    simp
  · intro h
    rw [run_conf conf env h]
    simp

/-- Witness for C8, exercising both the aborting and the resolving branch. -/
theorem directory_resolution_witness :
    (create_latent_dataset_from_checkpoint sampleConfNoCkpt sampleEnv).events = []
    ∧ (create_latent_dataset_from_checkpoint sampleConf sampleEnv).conf.checkpoint_dir =
        sampleEnv.resolve sampleConf.checkpoint_dir :=
  ⟨((directory_resolution sampleConfNoCkpt sampleEnv).1 rfl).2,
   ((directory_resolution sampleConf sampleEnv).2 (by decide)).1⟩

/-! ### C10: experiment-tracking arguments -/

/-- C10: every run that passes validation initializes the tracking run in
`disabled` mode exactly when `conf.logging.debug` is true and `online` mode
otherwise, with run name `latent-dataset-` followed by the invocation's
dataset name, the (possibly defaulted) `conf.logging.log_dir` as directory,
and the merged training config — not the invocation config — attached. -/
theorem wandb_run_arguments (conf : Conf) (env : Env)
    (h : conf.checkpoint_dir ≠ "") (hload : conf.latent_dataset.load = false)
    (hstore : conf.latent_dataset.store_if_new = true) :
    wandbArgsOf (create_latent_dataset_from_checkpoint conf env) =
      some (if conf.logging.debug then "disabled" else "online",
            "latent-dataset-" ++ conf.dataset.name,
            (if conf.logging.log_dir = "" then env.hydra_output_dir
             else conf.logging.log_dir),
            finalEnfCfg conf env) := by
  simp only [create_latent_dataset_from_checkpoint]
  rw [if_neg h]
  split_ifs <;> simp_all [wandbArgsOf, List.findSome?, finalEnfCfg]

/-- Witness for C10 at a concrete input (`debug = true`, so mode is
`disabled`). -/
theorem wandb_run_arguments_witness :
    wandbArgsOf (create_latent_dataset_from_checkpoint sampleConf sampleEnv) =
      some ("disabled", "latent-dataset-stl10", "/outputs/today",
            finalEnfCfg sampleConf sampleEnv) := by
  rw [wandb_run_arguments sampleConf sampleEnv (by decide) rfl rfl]
  rfl

/-! ### C5: shape-derived configuration fields -/

/-- C5: in every run that inspects a sample, the merged config's input
dimensionality is the constant 2, its output dimensionality is the last
entry of the sampled image shape, and `dataset.image_shape` is the full
sampled shape; moreover these fields are determined by the sampled shape
alone — any run observing the same shape produces the same values. -/
theorem shape_derived_fields (conf : Conf) (env : Env)
    (h : conf.checkpoint_dir ≠ "") (hs : env.image_shape ≠ []) (c : EnfCfg)
    (hc : (create_latent_dataset_from_checkpoint conf env).enf_cfg = some c) :
    c.nef.num_in = 2
    ∧ c.nef.num_out = (env.image_shape.getLast hs : Int)
    ∧ c.dataset.image_shape = env.image_shape
    ∧ (∀ (conf' : Conf) (env' : Env) (c' : EnfCfg), conf'.checkpoint_dir ≠ "" →
        env'.image_shape = env.image_shape →
        (create_latent_dataset_from_checkpoint conf' env').enf_cfg = some c' →
        c'.nef = c.nef ∧ c'.dataset.image_shape = c.dataset.image_shape) := by
  rw [run_enf_cfg conf env h, Option.some_inj] at hc
  subst hc
  have hlast : env.image_shape.getLastD 0 = env.image_shape.getLast hs := by
    rw [List.getLastD_eq_getLast?, List.getLast?_eq_getLast_of_ne_nil hs]
    rfl
  refine ⟨rfl, ?_, rfl, ?_⟩
  · simp only [finalEnfCfg, injectShape, hlast]
  · intro conf' env' c' h' hshape hc'
    rw [run_enf_cfg conf' env' h', Option.some_inj] at hc'
    subst hc'
    constructor
    · simp only [finalEnfCfg, injectShape, hshape]
    · simp only [finalEnfCfg, injectShape, hshape]

/-- Witness for C5 at a concrete input: shape `[2, 3, 1]` gives
`num_in = 2` and `num_out = 1`. -/
theorem shape_derived_fields_witness :
    (finalEnfCfg sampleConf sampleEnv).nef.num_in = 2
    ∧ (finalEnfCfg sampleConf sampleEnv).nef.num_out = 1 := by
  have h := shape_derived_fields sampleConf sampleEnv (by decide) (by decide)
    (finalEnfCfg sampleConf sampleEnv) (run_enf_cfg sampleConf sampleEnv (by decide))
  exact ⟨h.1, by rw [h.2.1]; decide⟩

/-! ### C6: the coordinate grid -/

/-- `linspace` produces exactly `num` points. -/
lemma linspace_length (start stop : ℚ) (num : Nat) :
    (linspace start stop num).length = num := by
  unfold linspace
  split_ifs with h0 h1
  · simp [h0]
  · simp [h1]
  · simp

/-- The `i`-th point of `linspace` with at least two points. -/
lemma linspace_getElem (start stop : ℚ) (num : Nat) (h2 : 2 ≤ num)
    (i : Nat) (hi : i < num) :
    (linspace start stop num)[i]? =
      some (start + (stop - start) * i / ((num : ℚ) - 1)) := by
  unfold linspace
  rw [if_neg (by omega), if_neg (by omega), List.getElem?_map,
    List.getElem?_range hi]
  rfl

/-- Indexing the row-major flattening of the stacked meshgrid: entry
`j * a.length + i` pairs the `i`-th first-axis value with the `j`-th
second-axis value. -/
lemma flatten_pairs_getElem (a b : List ℚ) :
    ∀ (j i : Nat), (hi : i < a.length) → (hj : j < b.length) →
      ((b.map (fun y => a.map (fun x => (x, y)))).flatten)[j * a.length + i]? =
        some (a.get ⟨i, hi⟩, b.get ⟨j, hj⟩) := by
  induction b with
  | nil => intro j i hi hj; exact absurd hj (by simp)
  | cons y b ih =>
    intro j i hi hj
    cases j with
    | zero =>
      rw [List.map_cons, List.flatten_cons, Nat.zero_mul, Nat.zero_add,
        List.getElem?_append_left (by simpa using hi), List.getElem?_map,
        List.getElem?_eq_getElem hi]
      rfl
    | succ j =>
      rw [List.map_cons, List.flatten_cons]
      have hlen : (a.map (fun x => (x, y))).length = a.length := by simp
      have hle : (a.map (fun x => (x, y))).length ≤ (j + 1) * a.length + i := by
        rw [hlen, Nat.succ_mul]
        omega
      rw [List.getElem?_append_right hle, hlen]
      have hsub : (j + 1) * a.length + i - a.length = j * a.length + i := by
        rw [Nat.succ_mul]
        omega
      rw [hsub, ih j i hi (Nat.lt_of_succ_lt_succ hj)]
      rfl

/-- Flattening one row of `a.length` pairs per entry of `b`. -/
lemma flatten_pairs_length (a b : List ℚ) :
    ((b.map (fun y => a.map (fun x => (x, y)))).flatten).length =
      b.length * a.length := by
  induction b with
  | nil => simp
  | cons y b ih =>
    rw [List.map_cons, List.flatten_cons, List.length_append, List.length_map, ih,
      List.length_cons, Nat.succ_mul, Nat.add_comm]

/-- The grid has one entry per pixel. -/
lemma make_coords_length (H W : Nat) :
    (make_coords H W).length = W * H := by
  unfold make_coords
  rw [flatten_pairs_length, linspace_length, linspace_length]

/-- C6: for every sampled image shape `H :: W :: _` with at least two
points per axis, the coordinate grid handed to the trainer has `H * W`
rows of pairs, and row `j * H + i` holds the `i`-th of `H` evenly spaced
first-axis values and the `j`-th of `W` evenly spaced second-axis values,
both running from −1 to 1 inclusive. -/
theorem coordinate_grid (conf : Conf) (env : Env)
    (h : conf.checkpoint_dir ≠ "")
    (H W : Nat) (tl : List Nat) (hshape : env.image_shape = H :: W :: tl)
    (hH : 2 ≤ H) (hW : 2 ≤ W) (cs : List (ℚ × ℚ))
    (hcs : (create_latent_dataset_from_checkpoint conf env).coords = some cs) :
    cs.length = H * W
    ∧ (∀ i j, (hi : i < H) → (hj : j < W) →
        cs[j * H + i]? =
          some (-1 + 2 * i / ((H : ℚ) - 1), -1 + 2 * j / ((W : ℚ) - 1))) := by
  rw [run_coords conf env h, hshape, Option.some_inj] at hcs
  subst hcs
  refine ⟨by rw [make_coords_length]; exact Nat.mul_comm W H, ?_⟩
  intro i j hi hj
  have hi' : i < (linspace (-1) 1 H).length := by rwa [linspace_length]
  have hj' : j < (linspace (-1) 1 W).length := by rwa [linspace_length]
  have hidx : j * H + i = j * (linspace (-1) 1 H).length + i := by
    rw [linspace_length]
  rw [show ((H : Nat) :: W :: tl).getD 0 0 = H from rfl,
    show ((H : Nat) :: W :: tl).getD 1 0 = W from rfl]
  unfold make_coords
  rw [hidx, flatten_pairs_getElem _ _ j i hi' hj']
  have hvi : (linspace (-1) 1 H)[i]? = some (-1 + 2 * i / ((H : ℚ) - 1)) := by
    rw [linspace_getElem (-1) 1 H hH i hi]
    norm_num
  have hvj : (linspace (-1) 1 W)[j]? = some (-1 + 2 * j / ((W : ℚ) - 1)) := by
    rw [linspace_getElem (-1) 1 W hW j hj]
    norm_num
  rw [List.getElem?_eq_getElem hi'] at hvi
  rw [List.getElem?_eq_getElem hj'] at hvj
  rw [List.get_eq_getElem, List.get_eq_getElem, Option.some_inj.mp hvi,
    Option.some_inj.mp hvj]

/-- Witness for C6 at a concrete input: shape `[2, 3, 1]` gives a grid of
6 rows whose row `1 * 2 + 1` is `(1, 0)`. -/
theorem coordinate_grid_witness :
    (make_coords 2 3).length = 2 * 3
    ∧ (make_coords 2 3)[1 * 2 + 1]? = some ((1 : ℚ), (0 : ℚ)) := by
  have h := coordinate_grid sampleConf sampleEnv (by decide) 2 3 [1] rfl
    (by decide) (by decide) (make_coords 2 3)
    (by rw [run_coords sampleConf sampleEnv (by decide)]; rfl)
  refine ⟨h.1, ?_⟩
  have h2 := h.2 1 1 (by decide) (by decide)
  rw [h2]
  norm_num
